import Mathlib

/-!
Verification of the ai_service core: per-tenant DuckDB-backed ingestion,
natural-language-to-SQL translation with a deterministic fallback, query
execution, and the tenant registry lifecycle.

The Python source is shallowly embedded as executable Lean functions:
  - app/services/duckdb_service.py : JSON flattening, payload normalization,
    table (re)creation, metadata upsert, query execution, table listing,
    the module-level per-user registry and its shutdown sweep.
  - app/services/chat_service.py : the fallback SQL generator, the
    OpenAI-backed translator (parametrized by the external call's outcome),
    and the chat orchestration.

External collaborators (the DuckDB engine, the HTTP completion service) are
modelled as explicit parameters describing their observable outcome, so every
theorem about the wrapper code is parametric in the collaborator's behavior.
-/

namespace AiService

/-- JSON values as produced by `response.json()`: null, booleans, numbers
(modelled as integers; no claim depends on float behavior), strings, arrays
and objects (ordered association lists with unique keys, as in Python dicts). -/
inductive JVal where
  | null
  | bool (b : Bool)
  | int (n : Int)
  | str (s : String)
  | arr (xs : List JVal)
  | obj (fields : List (String × JVal))
deriving Repr

/-- A record: a Python dict mapping column names to JSON values, in insertion
order. -/
abbrev Rec := List (String × JVal)

mutual

/-- Embeds Python `json.dumps` with its default separators (", " and ": ").
String escaping is not modelled (no claim exercises it): keys and string
values are emitted verbatim between quotes. -/
def dumps : JVal → String
  | .null => "null"
  | .bool true => "true"
  | .bool false => "false"
  | .int n => toString n
  | .str s => "\"" ++ s ++ "\""
  | .arr xs => "[" ++ String.intercalate ", " (dumpsList xs) ++ "]"
  | .obj fs => "\x7b" ++ String.intercalate ", " (dumpsPairs fs) ++ "\x7d"

/-- Serialization of the elements of a JSON array, in order. -/
def dumpsList : List JVal → List String
  | [] => []
  | x :: rest => dumps x :: dumpsList rest

/-- Serialization of the key/value pairs of a JSON object, in order. -/
def dumpsPairs : List (String × JVal) → List String
  | [] => []
  | (k, v) :: rest => ("\"" ++ k ++ "\": " ++ dumps v) :: dumpsPairs rest

end

/-- Python dict assignment `d[k] = v`: if the key is present its value is
updated in place (keeping its original position), otherwise the pair is
appended at the end (insertion order). -/
def dictSet (m : Rec) (k : String) (v : JVal) : Rec :=
  match m with
  | [] => [(k, v)]
  | (k', v') :: rest => if k' == k then (k, v) :: rest else (k', v') :: dictSet rest k v

/-- Tests `isinstance(value, (dict, list))`. -/
def isContainer : JVal → Bool
  | .arr _ => true
  | .obj _ => true
  | _ => false

/-- Tests whether a container is empty, i.e. falsy in Python (`{}` or `[]`). -/
def isEmptyContainer : JVal → Bool
  | .arr [] => true
  | .obj [] => true
  | _ => false

/-- Embeds the inner loop of `DuckDBService._flatten_nested_objects`
(duckdb_service.py lines 78-85): one immediate child `(nk, nv)` of a
non-empty nested dict stored under `key`. A scalar child is copied to the
column `key_nk`; a container child is stored under `key_nk` as
`json.dumps(nested_value) if nested_value else None`, i.e. its JSON text if
non-empty and None (null) if empty. -/
def flattenChildCode (flat : Rec) (key nk : String) (nv : JVal) : Rec :=
  if !(isContainer nv) then
    dictSet flat (key ++ "_" ++ nk) nv
  else
    dictSet flat (key ++ "_" ++ nk)
      (if isEmptyContainer nv then .null else .str (dumps nv))

/-- Embeds the per-field dispatch of `DuckDBService._flatten_nested_objects`
(duckdb_service.py lines 75-90): a non-empty dict value is expanded child by
child; a non-empty list value whose first element is a dict is serialized as
the JSON text of the whole list; every other value (including `{}` and `[]`)
is copied verbatim. -/
def flattenFieldCode (flat : Rec) (key : String) (value : JVal) : Rec :=
  match value with
  | .obj (f :: fs) =>
      (f :: fs).foldl (fun fl nkv => flattenChildCode fl key nkv.1 nkv.2) flat
  | .arr (v :: vs) =>
      match v with
      | .obj _ => dictSet flat key (.str (dumps (.arr (v :: vs))))
      | _ => dictSet flat key (.arr (v :: vs))
  | _ => dictSet flat key value

/-- Embeds the per-record body of `DuckDBService._flatten_nested_objects`:
builds `flat_record` by iterating the record's fields in order. -/
def flattenRecord (record : Rec) : Rec :=
  record.foldl (fun flat kv => flattenFieldCode flat kv.1 kv.2) []

/-- Embeds `DuckDBService._flatten_nested_objects` (duckdb_service.py lines
55-94): one flattened record is appended per input record. -/
def flatten_nested_objects (records : List Rec) : List Rec :=
  records.map flattenRecord

/-- Reference flattening of one child, following the words of the spec
(section 4.2), parametrized by the treatment `ser` of a container child:
a scalar child becomes the column `key_nk`; a container child becomes
`key_nk` holding `ser` of the container. -/
def flattenChildRef (ser : JVal → JVal) (flat : Rec) (key nk : String) (nv : JVal) : Rec :=
  if isContainer nv then
    dictSet flat (key ++ "_" ++ nk) (ser nv)
  else
    dictSet flat (key ++ "_" ++ nk) nv

/-- Reference per-field flattening, following the words of the spec
(section 4.2): a non-empty nested object is expanded one level; a sequence
whose first element is an object becomes the JSON text of the whole
sequence; every other field is copied verbatim. -/
def flattenFieldRef (ser : JVal → JVal) (flat : Rec) (key : String) (value : JVal) : Rec :=
  match value with
  | .obj (f :: fs) =>
      (f :: fs).foldl (fun fl nkv => flattenChildRef ser fl key nkv.1 nkv.2) flat
  | .arr (.obj g :: vs) => dictSet flat key (.str (dumps (.arr (.obj g :: vs))))
  | _ => dictSet flat key value

/-- Reference per-record flattening (spec section 4.2), parametric in the
container-child treatment. -/
def flattenRecordRef (ser : JVal → JVal) (record : Rec) : Rec :=
  record.foldl (fun flat kv => flattenFieldRef ser flat kv.1 kv.2) []

/-- The spec's container-child treatment, exactly as worded: "emit
`field_childKey` as that value's JSON-text serialization". -/
def specContainerSer (v : JVal) : JVal := .str (dumps v)

/-- The source's container-child treatment: JSON text for a non-empty
container, null for an empty one (`json.dumps(v) if v else None`). -/
def codeContainerSer (v : JVal) : JVal :=
  if isEmptyContainer v then .null else .str (dumps v)

/-- Flattening as the spec's reference definition states it, applied to each
record independently. -/
def specFlatten (records : List Rec) : List Rec :=
  records.map (flattenRecordRef specContainerSer)

/-- The spec's reference flattening amended at exactly one point: an empty
container child becomes null instead of its JSON text. -/
def specFlattenAmended (records : List Rec) : List Rec :=
  records.map (flattenRecordRef codeContainerSer)

/-! ### Payload normalization and table materialization -/

/-- Embeds the record extraction of `DuckDBService.create_table_from_response`
(duckdb_service.py lines 111-133) on JSON payloads: a list is taken as the
record sequence; a dict with a `data` key holding a list contributes that
list, any other dict is a single record; any other JSON value reaches the
`else: return False` branch (the pandas-DataFrame branch is unreachable for
payloads arriving from `response.json()` and is not modelled). -/
def extract_records : JVal → Option (List JVal)
  | .arr xs => some xs
  | .obj fs =>
      match fs.lookup "data" with
      | some (.arr ys) => some ys
      | _ => some [.obj fs]
  | _ => none

/-- Embeds the normalization prefix of `create_table_from_response`: record
extraction followed by the `if not records: return False` guard
(duckdb_service.py line 135). `none` is the EmptyPayload failure. -/
def normalize_records (data : JVal) : Option (List JVal) :=
  match extract_records data with
  | none => none
  | some rs => if rs.isEmpty then none else some rs

/-- Requires every normalized record to be an object: `record.items()` in
`_flatten_nested_objects` raises AttributeError on anything else, which the
enclosing `except` turns into failure before any table is touched. -/
def asRecords : List JVal → Option (List Rec)
  | [] => some []
  | .obj fs :: rest => (asRecords rest).map (fs :: ·)
  | _ => none

/-- One tenant store: the catalog of tables of the `main` schema of the
tenant's private DuckDB connection, as an ordered association list from
table name to its rows. The `_metadata` bookkeeping table lives in the same
catalog, its rows shaped as records. -/
structure Store where
  tables : List (String × List Rec)
deriving Repr

/-- Embeds `DuckDBService._init_metadata_table` (duckdb_service.py lines
40-53): `CREATE TABLE IF NOT EXISTS _metadata (...)`. -/
def init_metadata_table (s : Store) : Store :=
  if s.tables.any (fun e => e.1 == "_metadata") then s
  else ⟨s.tables ++ [("_metadata", [])]⟩

/-- A freshly constructed `DuckDBService`: a new connection (empty catalog)
followed by `_init_metadata_table`. -/
def newStore : Store := init_metadata_table ⟨[]⟩

/-- Embeds `DROP TABLE IF EXISTS name` (duckdb_service.py line 146). -/
def drop_table (s : Store) (name : String) : Store :=
  ⟨s.tables.filter (fun e => e.1 != name)⟩

/-- Embeds the drop-then-create materialization (duckdb_service.py lines
144-154): the existing table of that name, if any, is dropped, then the
table is created from the flattened rows. -/
def create_table (s : Store) (name : String) (rows : List Rec) : Store :=
  ⟨(drop_table s name).tables ++ [(name, rows)]⟩

/-- The metadata row written by the upsert at duckdb_service.py lines
159-163: `VALUES (?, ?, CURRENT_TIMESTAMP, ?)` bound to
`[table_name, table_name, row_count]` — the source-identifier column
receives the table name (the bound parameter list repeats `table_name`),
and CURRENT_TIMESTAMP is modelled as the explicit clock value `now`. -/
def metaRow (now : Int) (name : String) (cnt : Nat) : Rec :=
  [("table_name", .str name), ("rpc_name", .str name),
   ("created_at", .int now), ("row_count", .int (cnt : Int))]

/-- Tests whether a metadata row is keyed by the given table name
(`PRIMARY KEY (table_name)`). -/
def metaKeyIs (name : String) (row : Rec) : Bool :=
  match row.lookup "table_name" with
  | some (.str s) => s == name
  | _ => false

/-- INSERT OR REPLACE semantics on the metadata rows: the row with the same
primary key is replaced in place, otherwise the new row is appended. -/
def upsertMeta (rows : List Rec) (name : String) (r : Rec) : List Rec :=
  if rows.any (metaKeyIs name) then
    rows.map (fun row => if metaKeyIs name row then r else row)
  else rows ++ [r]

/-- Embeds the metadata upsert of `create_table_from_response`
(duckdb_service.py lines 156-165): `INSERT OR REPLACE INTO _metadata ...`.
When the `_metadata` table is absent the statement fails and the
surrounding `except: pass` makes the step a no-op. -/
def update_metadata (s : Store) (now : Int) (name : String) (cnt : Nat) : Store :=
  ⟨s.tables.map (fun e =>
      if e.1 == "_metadata" then (e.1, upsertMeta e.2 name (metaRow now name cnt)) else e)⟩

/-- Embeds `DuckDBService.create_table_from_response` (duckdb_service.py
lines 96-170) on a JSON payload, on the success path of the embedded engine
(engine-level EngineFailure during drop/create/write is outside this model;
the claims settled against this definition all concern successful
ingestions or failures that occur before the engine is touched). Returns
the new store and the boolean result of the Python function. The metadata
row count is `len(df)`, the number of flattened records. -/
def create_table_from_response (s : Store) (now : Int) (table_name : String)
    (data : JVal) : Store × Bool :=
  match normalize_records data with
  | none => (s, false)
  | some records =>
      match asRecords records with
      | none => (s, false)
      | some recs =>
          let flat := flatten_nested_objects recs
          let s1 := create_table s table_name flat
          let s2 := update_metadata s1 now table_name flat.length
          (s2, true)

/-- Embeds the payload hand-off of `ChatService.initialize_from_api`
(chat_service.py line 73): `data["data"] if "data" in data else data`. -/
def init_payload (data : JVal) : JVal :=
  match data with
  | .obj fs =>
      match fs.lookup "data" with
      | some v => v
      | none => .obj fs
  | v => v

/-- Embeds the ingestion step of `ChatService.initialize_from_api`
(chat_service.py lines 71-73): the RPC name is a parameter of the
orchestrator but is never handed to `create_table_from_response`, so it
cannot reach the metadata row. -/
def initialize_from_api (s : Store) (now : Int) (table_name rpc_name : String)
    (data : JVal) : Store × Bool :=
  create_table_from_response s now table_name (init_payload data)

/-- Embeds `DuckDBService.list_tables` (duckdb_service.py lines 215-221):
`SELECT table_name FROM information_schema.tables WHERE table_schema='main'`
reports every table of the main schema, i.e. the whole catalog — the
`_metadata` table included. -/
def list_tables (s : Store) : List String := s.tables.map Prod.fst

/-- The rows currently stored under a table name, if the table exists. -/
def lookup_rows (s : Store) (name : String) : Option (List Rec) :=
  s.tables.lookup name

/-- Embeds the response of the GET /api/chat/tables route
(app/api/routes/chat.py lines 78-91): the listed names and their count. -/
def table_list_response (s : Store) : List String × Nat :=
  (list_tables s, (list_tables s).length)

/-! ### String helpers (kernel-computable embeddings of the Python string
operations used by the translator) -/

/-- Tests whether `p` is a leading segment of `l` (character lists). -/
def startsWithChars : List Char → List Char → Bool
  | [], _ => true
  | _ :: _, [] => false
  | p :: ps, c :: cs => p == c && startsWithChars ps cs

/-- Tests whether `pat` occurs inside `l` (character lists). -/
def containsChars (pat : List Char) : List Char → Bool
  | [] => pat.isEmpty
  | c :: cs => startsWithChars pat (c :: cs) || containsChars pat cs

/-- Embeds the Python substring test `pat in s`. -/
def strContains (s pat : String) : Bool := containsChars pat.data s.data

/-- Embeds Python `str.lower` (ASCII case folding; every question in the
claims is ASCII). -/
def pyLower (s : String) : String := ⟨s.data.map Char.toLower⟩

/-- Embeds Python `str.strip`: leading and trailing whitespace removed. -/
def pyStrip (s : String) : String :=
  ⟨((s.data.dropWhile Char.isWhitespace).reverse.dropWhile Char.isWhitespace).reverse⟩

/-- Embeds Python `s.startswith(pat)`. -/
def pyStartsWith (s pat : String) : Bool := startsWithChars pat.data s.data

/-- Embeds Python `s.split(sep, 1)` restricted to what the source consumes:
the part after the first occurrence of `sep`, or `none` when `sep` does not
occur (in which case indexing `[1]` raises IndexError). Returns the part
before as well. -/
def splitFirstChars (sep : List Char) : List Char → Option (List Char × List Char)
  | [] => none
  | c :: cs =>
      if startsWithChars sep (c :: cs) then some ([], (c :: cs).drop sep.length)
      else
        match splitFirstChars sep cs with
        | none => none
        | some (pre, post) => some (c :: pre, post)

/-- Embeds Python `s.rsplit(sep, 1)` restricted to what the source consumes:
the part before the last occurrence of `sep`, or `none` when `sep` does not
occur. -/
def splitLastChars (sep : List Char) : List Char → Option (List Char × List Char)
  | [] => none
  | c :: cs =>
      match splitLastChars sep cs with
      | some (pre, post) => some (c :: pre, post)
      | none =>
        if startsWithChars sep (c :: cs) then some ([], (c :: cs).drop sep.length)
        else none

/-! ### Query translation (chat_service.py) -/

/-- A table schema as `DESCRIBE` reports it: an ordered mapping from column
name to type tag. -/
abbrev Schema := List (String × String)

/-- Embeds `ChatService._simple_sql_fallback` (chat_service.py lines
222-255): case-insensitive substring rules against the lowered question,
first match winning. Python's `columns[0]` raises IndexError on an empty
schema; `chat` only reaches this code with a non-empty schema (its
`if not schema` guard), and `headD` totalizes that corner. -/
def simple_sql_fallback (user_message table_name : String) (schema : Schema) : String :=
  let message_lower := pyLower user_message
  let columns := schema.map Prod.fst
  if strContains message_lower "all" || strContains message_lower "show" ||
     strContains message_lower "list" then
    "SELECT * FROM " ++ table_name ++ " LIMIT 100"
  else if strContains message_lower "count" || strContains message_lower "how many" then
    "SELECT COUNT(*) as total FROM " ++ table_name
  else if strContains message_lower "top" || strContains message_lower "latest" ||
          strContains message_lower "recent" then
    "SELECT * FROM " ++ table_name ++ " ORDER BY " ++ columns.headD "" ++ " DESC LIMIT 10"
  else
    "SELECT * FROM " ++ table_name ++ " LIMIT 50"

/-- The spec's fallback rule table (section 4.4), written as data: keyword
lists in priority order, each with its SQL template, the count rule using
the keyword spelled as the source emits it. -/
def fallbackRules (table_name : String) (columns : List String) : List (List String × String) :=
  [ (["all", "show", "list"], "SELECT * FROM " ++ table_name ++ " LIMIT 100"),
    (["count", "how many"], "SELECT COUNT(*) as total FROM " ++ table_name),
    (["top", "latest", "recent"],
      "SELECT * FROM " ++ table_name ++ " ORDER BY " ++ columns.headD "" ++ " DESC LIMIT 10") ]

/-- The spec's fallback translator: the first rule (in the fixed priority
order) one of whose keywords occurs in the lowered question wins; with no
match, `SELECT * FROM table LIMIT 50`. -/
def specFallback (user_message table_name : String) (columns : List String) : String :=
  match (fallbackRules table_name columns).find?
      (fun rule => rule.1.any (fun kw => strContains (pyLower user_message) kw)) with
  | some rule => rule.2
  | none => "SELECT * FROM " ++ table_name ++ " LIMIT 50"

/-- The observable body of the completion-service HTTP response:
`malformed` covers a body `response.json()` cannot parse as well as one
missing `choices[0].message.content` (both raise, and the surrounding
`except` falls back); `content` carries the completion text. -/
inductive CompletionBody where
  | malformed
  | content (text : String)

/-- The outcome of the POST to the completion service as `_convert_to_sql`
observes it: `exn` is a network failure (or any exception during the call),
`resp` a received HTTP response. -/
inductive ApiOutcome where
  | exn
  | resp (status : Nat) (body : CompletionBody)

/-- Embeds the markdown-fence cleanup of `_convert_to_sql` (chat_service.py
line 215): `sql.split("\n", 1)[1].rsplit("```", 1)[0].strip()`; `none` is
the IndexError raised when the fenced text has no newline, which the
enclosing `except` turns into the fallback. -/
def stripFenceBody (sql : String) : Option String :=
  match splitFirstChars ['\n'] sql.data with
  | none => none
  | some (_, rest) =>
      let kept :=
        match splitLastChars ['`', '`', '`'] rest with
        | some (pre, _) => pre
        | none => rest
      some (pyStrip ⟨kept⟩)

/-- Embeds `ChatService._convert_to_sql` (chat_service.py lines 154-220),
parametrized by the completion-service outcome: network failure, a
malformed body, an error status, or a fence-cleanup error all fall back to
`simple_sql_fallback`; otherwise the (stripped, fence-cleaned) completion
text is returned as is — even when it is empty. -/
def convert_to_sql (outcome : ApiOutcome) (user_message table_name : String)
    (schema : Schema) : String :=
  match outcome with
  | .exn => simple_sql_fallback user_message table_name schema
  | .resp status body =>
      if 400 ≤ status then simple_sql_fallback user_message table_name schema
      else
        match body with
        | .malformed => simple_sql_fallback user_message table_name schema
        | .content c =>
            let sql := pyStrip c
            if pyStartsWith sql "```" then
              match stripFenceBody sql with
              | none => simple_sql_fallback user_message table_name schema
              | some s => s
            else sql

/-! ### Query execution (duckdb_service.py) -/

/-- The observable outcome of `self.conn.execute(query).fetchall()` on the
tenant's DuckDB connection: an engine error (any raised exception), or the
engine-reported column names together with the result rows. -/
inductive EngineResult where
  | err
  | ok (columns : List String) (rows : List (List JVal))

/-- Embeds `dict(zip(columns, row))`: pairs are zipped (truncating to the
shorter side) and inserted into a dict in order. -/
def zipDict (cols : List String) (row : List JVal) : Rec :=
  (cols.zip row).foldl (fun d kv => dictSet d kv.1 kv.2) []

/-- The successful result shape of `DuckDBService.query_table`: the
engine-reported column names and one row-mapping per result row. -/
structure QueryResult where
  columns : List String
  data : List Rec
deriving Repr

/-- Embeds `DuckDBService.query_table` (duckdb_service.py lines 172-193),
parametrized by the engine's behavior: on an engine error it returns
`none`; otherwise the columns with one `dict(zip(columns, row))` per row,
the zero-row case yielding the successful empty result. -/
def query_table (engine : String → EngineResult) (query : String) : Option QueryResult :=
  match engine query with
  | .err => none
  | .ok cols rows =>
      if !rows.isEmpty then some ⟨cols, rows.map (zipDict cols)⟩
      else some ⟨cols, []⟩

/-! ### Chat orchestration (chat_service.py lines 96-152) -/

/-- The caller-visible outcome of `ChatService.chat`, one constructor per
return site. -/
inductive ChatResult where
  | tableNotFound
  | couldNotParse
  | queryFailed
  | success (sql : String) (result : QueryResult) (count : Nat)

/-- Embeds `ChatService.chat`, parametrized by the schema introspection
(`get_table_schema`: `none` models its `except` path, and `if not schema`
also treats an empty dict as not found), the completion-service outcome and
the engine. The translation result is surfaced as a failure exactly when it
is falsy, i.e. the empty string (`if not sql_query`). -/
def chat (schemaOf : String → Option Schema) (outcome : ApiOutcome)
    (engine : String → EngineResult) (table_name user_message : String) : ChatResult :=
  match schemaOf table_name with
  | none => .tableNotFound
  | some schema =>
      if schema = [] then .tableNotFound
      else
        let sql := convert_to_sql outcome user_message table_name schema
        if sql = "" then .couldNotParse
        else
          match query_table engine sql with
          | none => .queryFailed
          | some r => .success sql r r.data.length

/-! ### Tenant registry (duckdb_service.py lines 334-376)

The registry `_user_dbs` is a module-level dict; `get_db` performs an
unsynchronized check-then-construct-then-insert, and `return
_user_dbs[user_id]` re-reads the dict. To reason about concurrent
first-access the function is decomposed into its atomic steps and two
callers for the same tenant id are interleaved by an explicit schedule;
store instances are numbered in construction order, so the number of
constructions performed is directly observable. -/

/-- The program counter of one `get_db(user_id)` caller: about to test
`user_id not in _user_dbs`; about to run `DuckDBService(user_id)`; about to
write the constructed instance into the dict; about to read
`_user_dbs[user_id]` for the return; or finished with the returned
instance. -/
inductive TPhase where
  | start
  | construct
  | insert (sid : Nat)
  | readback
  | done (ret : Option Nat)
deriving Repr, DecidableEq

/-- The shared state and the two callers' phases: the dict entry for the
one tenant id under scrutiny, and the number of store constructions run so
far. -/
structure RaceState where
  reg : Option Nat
  constructed : Nat
  a : TPhase
  b : TPhase
deriving Repr, DecidableEq

/-- One atomic step of one caller: the membership test routes past the
construction when the entry is present; construction allocates the next
instance number; insertion publishes it; the final read returns whatever
the dict then holds. -/
def stepThread (reg : Option Nat) (constructed : Nat) :
    TPhase → TPhase × Option Nat × Nat
  | .start => (if reg.isSome then .readback else .construct, reg, constructed)
  | .construct => (.insert constructed, reg, constructed + 1)
  | .insert sid => (.readback, some sid, constructed)
  | .readback => (.done reg, reg, constructed)
  | .done r => (.done r, reg, constructed)

/-- One scheduled step: `true` steps caller A, `false` steps caller B. -/
def stepRace (s : RaceState) (pick : Bool) : RaceState :=
  if pick then
    let (a', reg', constructed') := stepThread s.reg s.constructed s.a
    ⟨reg', constructed', a', s.b⟩
  else
    let (b', reg', constructed') := stepThread s.reg s.constructed s.b
    ⟨reg', constructed', s.a, b'⟩

/-- Runs a schedule of interleaved steps. -/
def runRace (sched : List Bool) (s : RaceState) : RaceState :=
  sched.foldl stepRace s

/-- Two concurrent first-accesses for the same unseen tenant id: no dict
entry, no construction yet, both callers at the membership test. -/
def initRace : RaceState := ⟨none, 0, .start, .start⟩

/-! ### Registry shutdown (duckdb_service.py lines 369-376) -/

/-- The shutdown sweep loop of `close_all_dbs`: the registry entries in
iteration order, each tagged with whether its `close()` raises. Returns the
ids closed before the sweep stopped and the id whose close raised, if
any — the loop body has no exception handling, so the first raise ends the
loop. -/
def sweepClose : List (String × Bool) → List String × Option String
  | [] => ([], none)
  | (uid, fails) :: rest =>
      if fails then ([], some uid)
      else
        let r := sweepClose rest
        (uid :: r.1, r.2)

/-- Embeds `close_all_dbs`: iterate the registry closing each store, then
`_user_dbs.clear()`. When some close raises, the exception propagates out
of the function: the remaining stores are never closed and the registry is
left as it was. Returns (closed ids, propagated failure, final registry). -/
def close_all_dbs (reg : List (String × Bool)) :
    List String × Option String × List (String × Bool) :=
  let r := sweepClose reg
  match r.2 with
  | none => (r.1, none, [])
  | some e => (r.1, some e, reg)

/-! ## Helper lemmas -/

/-- Appending cannot erase a non-empty left part. -/
lemma append_ne_empty (a b : String) (h : a ≠ "") : a ++ b ≠ "" := by
  intro hab
  apply h
  have hd : a.data ++ b.data = [] := by
    have := congrArg String.data hab
    simpa [String.data_append] using this
  rcases List.append_eq_nil.mp hd with ⟨ha, _⟩
  exact String.ext ha

/-- The fallback translator never returns the empty string: each of its four
branches starts with a SELECT literal. -/
lemma simple_sql_fallback_ne_empty (q t : String) (schema : Schema) :
    simple_sql_fallback q t schema ≠ "" := by
  unfold simple_sql_fallback
  dsimp only
  split
  · exact append_ne_empty _ _ (append_ne_empty _ _ (by decide))
  · split
    · exact append_ne_empty _ _ (by decide)
    · split
      · exact append_ne_empty _ _ (append_ne_empty _ _ (append_ne_empty _ _
          (append_ne_empty _ _ (by decide))))
      · exact append_ne_empty _ _ (append_ne_empty _ _ (by decide))

/-- The code's per-child flattening coincides with the spec's reference
per-child flattening once the container treatment is the code's
(`json.dumps` for a non-empty container, null for an empty one). -/
lemma flattenChildCode_eq (fl : Rec) (key nk : String) (nv : JVal) :
    flattenChildCode fl key nk nv = flattenChildRef codeContainerSer fl key nk nv := by
  cases nv <;>
    simp [flattenChildCode, flattenChildRef, isContainer, codeContainerSer]

/-- The code's per-field flattening coincides with the spec's reference
per-field flattening under the code's container treatment. -/
lemma flattenFieldCode_eq (fl : Rec) (key : String) (value : JVal) :
    flattenFieldCode fl key value = flattenFieldRef codeContainerSer fl key value := by
  cases value with
  | obj fs =>
      cases fs with
      | nil => rfl
      | cons f fs =>
          show (f :: fs).foldl (fun fl nkv => flattenChildCode fl key nkv.1 nkv.2) fl =
            (f :: fs).foldl (fun fl nkv => flattenChildRef codeContainerSer fl key nkv.1 nkv.2) fl
          exact List.foldl_ext _ _ fl (fun a b _ => flattenChildCode_eq a key b.1 b.2)
  | arr xs =>
      cases xs with
      | nil => rfl
      | cons v vs => cases v <;> rfl
  | null => rfl
  | bool b => rfl
  | int n => rfl
  | str s => rfl

/-- Per-record: the code's flattening is the spec's reference flattening
under the code's container treatment. -/
lemma flattenRecord_eq (r : Rec) :
    flattenRecord r = flattenRecordRef codeContainerSer r :=
  List.foldl_ext _ _ [] (fun a b _ => flattenFieldCode_eq a b.1 b.2)

/-! ## C1 — flattening vs. the spec's per-record reference definition -/

/-- The record refuting C1 as stated: a field holding a non-empty nested
object one of whose immediate children is an empty container. -/
def c1Input : Rec := [("a", .obj [("b", .arr [])])]

/-- C1 counterexample: on the record `a ↦ (b ↦ [])` the code puts null in
column `a_b` (`json.dumps(v) if v else None`), while the spec's reference
definition puts the JSON text "[]" there, so flattening does not equal the
spec's per-record reference definition. -/
theorem c1_flattening_counterexample :
    flatten_nested_objects [c1Input] ≠ specFlatten [c1Input] := by
  simp [c1Input, flatten_nested_objects, specFlatten, flattenRecord, flattenRecordRef,
    flattenFieldCode, flattenFieldRef, flattenChildCode, flattenChildRef,
    isContainer, isEmptyContainer, specContainerSer, dictSet]

/-- C1 amended: flattening equals the spec's per-record reference definition
amended at exactly one point — an immediate container child that is empty
becomes null rather than its JSON text; in particular the flattening is
applied to each record independently and the output has exactly one
flattened record per input record. -/
theorem c1_flattening_amended (records : List Rec) :
    flatten_nested_objects records = specFlattenAmended records ∧
    (flatten_nested_objects records).length = records.length := by
  constructor
  · simp only [flatten_nested_objects, specFlattenAmended]
    exact List.map_congr_left (fun r _ => flattenRecord_eq r)
  · simp [flatten_nested_objects]

/-! ## C2 — the fallback translator's rule table -/

/-- C2 counterexample: on a count question the fallback emits the keyword
`as` in lower case, so the claimed SQL text `SELECT COUNT(*) AS total FROM
tickets` is not what the translator returns. -/
theorem c2_fallback_counterexample :
    simple_sql_fallback "how many tickets are there?" "tickets"
        [("id", "INTEGER"), ("created_at", "TIMESTAMP")] =
      "SELECT COUNT(*) as total FROM tickets" ∧
    simple_sql_fallback "how many tickets are there?" "tickets"
        [("id", "INTEGER"), ("created_at", "TIMESTAMP")] ≠
      "SELECT COUNT(*) AS total FROM tickets" := by
  constructor
  · decide
  · decide

/-- C2 amended: the fallback translator evaluates exactly the spec's rule
table, in its fixed priority order with the first match winning, on
case-insensitive substring matching, with the rule-2 text spelled
`SELECT COUNT(*) as total FROM ...` (lower-case `as`); rule order decides
the priority example, and rule 3 orders by the first schema column. -/
theorem c2_fallback_amended :
    (∀ (q t : String) (schema : Schema),
        simple_sql_fallback q t schema = specFallback q t (schema.map Prod.fst)) ∧
    simple_sql_fallback "show all tickets and count them" "tickets"
        [("id", "INTEGER"), ("status", "VARCHAR")] = "SELECT * FROM tickets LIMIT 100" ∧
    simple_sql_fallback "top tickets" "tickets"
        [("id", "INTEGER"), ("created_at", "TIMESTAMP")] =
      "SELECT * FROM tickets ORDER BY id DESC LIMIT 10" := by
  refine ⟨fun q t schema => ?_, by decide, by decide⟩
  cases h1 : strContains (pyLower q) "all" <;>
    cases h2 : strContains (pyLower q) "show" <;>
    cases h3 : strContains (pyLower q) "list" <;>
    cases h4 : strContains (pyLower q) "count" <;>
    cases h5 : strContains (pyLower q) "how many" <;>
    cases h6 : strContains (pyLower q) "top" <;>
    cases h7 : strContains (pyLower q) "latest" <;>
    cases h8 : strContains (pyLower q) "recent" <;>
    simp [simple_sql_fallback, specFallback, fallbackRules, h1, h2, h3, h4, h5, h6, h7, h8]

/-! ## C3 — the query executor's result shape -/

/-- C3: for every engine behavior and SQL string, `query_table` returns
`none` exactly on an engine error; on success it returns the
engine-reported columns with one `dict(zip(columns, row))` per row, the
zero-row case being the successful result with columns and empty data,
never absence. -/
theorem c3_query_executor (engine : String → EngineResult) (q : String) :
    (engine q = .err → query_table engine q = none) ∧
    (∀ cols rows, engine q = .ok cols rows →
        query_table engine q = some ⟨cols, rows.map (zipDict cols)⟩ ∧
        (rows = [] → query_table engine q = some ⟨cols, []⟩) ∧
        query_table engine q ≠ none) := by
  refine ⟨fun h => by simp [query_table, h], fun cols rows h => ?_⟩
  cases rows with
  | nil =>
      exact ⟨by simp [query_table, h], fun _ => by simp [query_table, h],
        by simp [query_table, h]⟩
  | cons r rs =>
      exact ⟨by simp [query_table, h], fun hc => absurd hc (List.cons_ne_nil r rs),
        by simp [query_table, h]⟩

/-- An engine behaving as DuckDB does for `SELECT COUNT(*) FROM t` on an
empty table `t`: a single aggregate row, and an error on anything else. -/
def countEngine : String → EngineResult := fun q =>
  if q = "SELECT COUNT(*) FROM t" then .ok ["count_star()"] [[.int 0]] else .err

/-- C3 witness: executing `SELECT COUNT(*) FROM t` against an empty table
returns a successful one-row `QueryResult`, and an erroneous statement
returns absence. -/
theorem c3_query_executor_witness :
    query_table countEngine "SELECT COUNT(*) FROM t" =
      some ⟨["count_star()"], [[("count_star()", .int 0)]]⟩ ∧
    query_table countEngine "DELETE FROM missing" = none := by
  have h := (c3_query_executor countEngine "SELECT COUNT(*) FROM t").2
    ["count_star()"] [[.int 0]] (by simp [countEngine])
  have h2 := (c3_query_executor countEngine "DELETE FROM missing").1 (by simp [countEngine])
  exact ⟨by simpa [zipDict, dictSet] using h.1, h2⟩

/-! ## C4 — ingestion input normalization -/

/-- C4 counterexample: ingesting the empty object does not fail with
EmptyPayload — `{}` is a dict without a `data` list, so the source treats
it as a single record and normalization yields the one-element sequence
containing it. -/
theorem c4_normalization_counterexample :
    normalize_records (.obj []) = some [.obj []] ∧ normalize_records (.obj []) ≠ none := by
  constructor
  · rfl
  · simp [normalize_records, extract_records]

/-- C4 amended: normalization accepts the three claimed payload shapes, with
the object case following the data-field rule uniformly — so the empty
object is normalized to a single (empty) record, not rejected as
EmptyPayload; the empty sequence, an object whose `data` field is the empty
sequence, and every non-container payload fail (EmptyPayload); and
ingesting the wrapper with two records under table `t` succeeds with a
metadata row count of 2. -/
theorem c4_normalization_amended :
    (normalize_records (.arr []) = none) ∧
    (∀ x xs, normalize_records (.arr (x :: xs)) = some (x :: xs)) ∧
    (∀ fs ys, fs.lookup "data" = some (.arr ys) →
        normalize_records (.obj fs) = if ys.isEmpty then none else some ys) ∧
    (∀ fs, (∀ ys, fs.lookup "data" ≠ some (.arr ys)) →
        normalize_records (.obj fs) = some [.obj fs]) ∧
    (normalize_records .null = none) ∧
    (∀ b, normalize_records (.bool b) = none) ∧
    (∀ n, normalize_records (.int n) = none) ∧
    (∀ s, normalize_records (.str s) = none) ∧
    ((create_table_from_response newStore 0 "t"
        (.obj [("data", .arr [.obj [("a", .int 1)], .obj [("a", .int 2)]])])).2 = true ∧
      lookup_rows (create_table_from_response newStore 0 "t"
        (.obj [("data", .arr [.obj [("a", .int 1)], .obj [("a", .int 2)]])])).1 "t" =
        some [[("a", .int 1)], [("a", .int 2)]] ∧
      lookup_rows (create_table_from_response newStore 0 "t"
        (.obj [("data", .arr [.obj [("a", .int 1)], .obj [("a", .int 2)]])])).1 "_metadata" =
        some [metaRow 0 "t" 2]) := by
  refine ⟨rfl, fun x xs => rfl, fun fs ys h => ?_, fun fs hne => ?_,
    rfl, fun b => rfl, fun n => rfl, fun s => rfl, rfl, rfl, rfl⟩
  · simp [normalize_records, extract_records, h]
  · cases hl : fs.lookup "data" with
    | none => simp [normalize_records, extract_records, hl]
    | some v =>
        cases v with
        | arr ys => exact absurd hl (hne ys)
        | null => simp [normalize_records, extract_records, hl]
        | bool b => simp [normalize_records, extract_records, hl]
        | int n => simp [normalize_records, extract_records, hl]
        | str s => simp [normalize_records, extract_records, hl]
        | obj gs => simp [normalize_records, extract_records, hl]

/-- C4 witness: the wrapper payload with two records normalizes to those
two records, and an object without a `data` field normalizes to itself as
a single record. -/
theorem c4_normalization_witness :
    normalize_records (.obj [("data", .arr [.obj [("a", .int 1)], .obj [("a", .int 2)]])]) =
      some [.obj [("a", .int 1)], .obj [("a", .int 2)]] ∧
    normalize_records (.obj [("x", .int 1)]) = some [.obj [("x", .int 1)]] := by
  constructor
  · have h := c4_normalization_amended.2.2.1
      [("data", .arr [.obj [("a", .int 1)], .obj [("a", .int 2)]])]
      [.obj [("a", .int 1)], .obj [("a", .int 2)]] (by rfl)
    simpa using h
  · exact c4_normalization_amended.2.2.2.1 [("x", .int 1)] (fun ys => by simp [List.lookup])

/-! ## C6 — the metadata row's source identifier -/

/-- C6: the orchestrator ingests via an RPC name (here `fn_get_tickets`)
into table `tickets`, but the metadata upsert binds the table name for
both the `table_name` and the source-identifier column — the stored
source identifier is `tickets`, not the RPC identifier that populated the
table. -/
theorem c6_metadata_source_identifier :
    lookup_rows ((initialize_from_api newStore 0 "tickets" "fn_get_tickets"
        (.arr [.obj [("id", .int 1)]])).1) "_metadata" =
      some [[("table_name", .str "tickets"), ("rpc_name", .str "tickets"),
             ("created_at", .int 0), ("row_count", .int 1)]] ∧
    "tickets" ≠ "fn_get_tickets" := by
  exact ⟨rfl, by decide⟩

/-! ## Store lemmas shared by the ingestion claims -/

/-- The metadata upsert does not change which tables exist. -/
lemma list_tables_update_metadata (s : Store) (now : Int) (n : String) (c : Nat) :
    list_tables (update_metadata s now n c) = list_tables s := by
  simp only [list_tables, update_metadata, List.map_map]
  refine List.map_congr_left (fun e _ => ?_)
  by_cases h : e.1 = "_metadata" <;> simp [h]

/-- Looking up any table other than `_metadata` is unaffected by the
metadata upsert. -/
lemma lookup_map_update (l : List (String × List Rec)) (f : List Rec → List Rec)
    (name : String) (h : name ≠ "_metadata") :
    (l.map (fun e => if e.1 == "_metadata" then (e.1, f e.2) else e)).lookup name =
      l.lookup name := by
  induction l with
  | nil => rfl
  | cons e rest ih =>
      rw [List.map_cons]
      by_cases he : e.1 = "_metadata"
      · rw [if_pos (show (e.1 == "_metadata") = true by simp [he])]
        have hk : (name == e.1) = false := by rw [he]; simp; exact h
        simp only [List.lookup, hk]
        simpa using ih
      · rw [if_neg (show ¬(e.1 == "_metadata") = true by simp [he])]
        by_cases hn : name = e.1
        · have hk : (name == e.1) = true := by simp [hn]
          simp [List.lookup, hk]
        · have hk : (name == e.1) = false := by simp [hn]
          simp only [List.lookup, hk]
          simpa using ih

/-- Same statement at the store level. -/
lemma lookup_rows_update_metadata (s : Store) (now : Int) (n : String) (c : Nat)
    (name : String) (h : name ≠ "_metadata") :
    lookup_rows (update_metadata s now n c) name = lookup_rows s name :=
  lookup_map_update s.tables (fun rows => upsertMeta rows n (metaRow now n c)) name h

/-- Looking up a key that no earlier entry carries finds the appended
entry. -/
lemma lookup_append_last {β : Type} (l : List (String × β)) (name : String) (rows : β)
    (h : ∀ e ∈ l, e.1 ≠ name) : (l ++ [(name, rows)]).lookup name = some rows := by
  induction l with
  | nil => simp [List.lookup]
  | cons e rest ih =>
      have he : (name == e.1) = false := by
        simp
        exact fun hn => (h e (List.mem_cons_self e rest)) hn.symm
      simpa [List.lookup, he] using ih (fun e' he' => h e' (List.mem_cons_of_mem e he'))

/-- After drop-then-create, exactly one catalog entry carries the created
name. -/
lemma count_list_tables_create (s : Store) (name : String) (rows : List Rec) :
    (list_tables (create_table s name rows)).count name = 1 := by
  simp only [list_tables, create_table, drop_table, List.map_append, List.count_append]
  have h0 : ((s.tables.filter (fun e => e.1 != name)).map Prod.fst).count name = 0 := by
    rw [List.count_eq_zero]
    intro hmem
    rcases List.mem_map.mp hmem with ⟨e, hef, hfst⟩
    have := (List.mem_filter.mp hef).2
    rw [hfst] at this
    simp at this
  simp [h0]

/-- After drop-then-create, the created name holds exactly the new rows. -/
lemma lookup_rows_create (s : Store) (name : String) (rows : List Rec) :
    lookup_rows (create_table s name rows) name = some rows := by
  refine lookup_append_last _ name rows (fun e he => ?_)
  have := (List.mem_filter.mp he).2
  simpa using this

/-! ## C5 — re-ingestion fully replaces prior content -/

/-- C5: a successful (re)ingestion into a table name leaves exactly one
entry of that name in the listing, and the table then holds exactly the
flattened new records — as many rows as the new input has records,
independent of anything previously stored under that name. -/
theorem c5_reingest_replaces (s : Store) (now : Int) (name : String) (data : JVal)
    (records : List JVal) (recs : List Rec)
    (hname : name ≠ "_metadata")
    (hnorm : normalize_records data = some records)
    (hrecs : asRecords records = some recs) :
    (list_tables (create_table_from_response s now name data).1).count name = 1 ∧
    lookup_rows (create_table_from_response s now name data).1 name =
      some (flatten_nested_objects recs) ∧
    (flatten_nested_objects recs).length = recs.length := by
  have hs : (create_table_from_response s now name data).1 =
      update_metadata (create_table s name (flatten_nested_objects recs)) now name
        (flatten_nested_objects recs).length := by
    simp [create_table_from_response, hnorm, hrecs]
  refine ⟨?_, ?_, by simp [flatten_nested_objects]⟩
  · rw [hs, list_tables_update_metadata]
    exact count_list_tables_create s name _
  · rw [hs, lookup_rows_update_metadata _ _ _ _ _ hname]
    exact lookup_rows_create s name _

/-- A store already holding a three-row table `t` (and its metadata row),
used to witness the replacement behavior. -/
def c5Store : Store :=
  ⟨[("_metadata", [metaRow 0 "t" 3]),
    ("t", [[("a", .int 1)], [("a", .int 2)], [("a", .int 3)]])]⟩

/-- The two fresh records re-ingested in the C5 witness. -/
def c5NewRecs : List Rec := [[("b", .int 1)], [("b", .int 2)]]

/-- C5 witness: re-ingesting two fresh records into the existing three-row
table `t` leaves one listing entry named `t` holding exactly the two new
rows. -/
theorem c5_reingest_witness :
    (list_tables (create_table_from_response c5Store 1 "t"
        (.arr [.obj [("b", .int 1)], .obj [("b", .int 2)]])).1).count "t" = 1 ∧
    lookup_rows (create_table_from_response c5Store 1 "t"
        (.arr [.obj [("b", .int 1)], .obj [("b", .int 2)]])).1 "t" =
      some (flatten_nested_objects c5NewRecs) ∧
    (flatten_nested_objects c5NewRecs).length = c5NewRecs.length :=
  c5_reingest_replaces c5Store 1 "t" (.arr [.obj [("b", .int 1)], .obj [("b", .int 2)]])
    [.obj [("b", .int 1)], .obj [("b", .int 2)]] c5NewRecs
    (by decide) rfl rfl

/-! ## C10 — the metadata table is itself listed -/

/-- C10: the table listing reports the whole main-schema catalog, so it
contains `_metadata` before any ingestion (the fresh store lists exactly
`_metadata`, with count 1), `_metadata` stays listed across any ingestion
under another name, and a successful ingestion's table is listed alongside
it. -/
theorem c10_metadata_is_listed (s : Store) (now : Int) (name : String) (data : JVal)
    (hname : name ≠ "_metadata") :
    table_list_response newStore = (["_metadata"], 1) ∧
    ("_metadata" ∈ list_tables s →
        "_metadata" ∈ list_tables (create_table_from_response s now name data).1) ∧
    ((create_table_from_response s now name data).2 = true →
        name ∈ list_tables (create_table_from_response s now name data).1) := by
  refine ⟨rfl, ?_, ?_⟩
  · cases hn : normalize_records data with
    | none => simp [create_table_from_response, hn]
    | some records =>
        cases hr : asRecords records with
        | none => simp [create_table_from_response, hn, hr]
        | some recs =>
            intro hpre
            simp only [create_table_from_response, hn, hr, list_tables_update_metadata]
            simp only [list_tables, create_table, drop_table, List.map_append,
              List.mem_append]
            left
            rcases List.mem_map.mp hpre with ⟨e, hes, hfst⟩
            refine List.mem_map.mpr ⟨e, List.mem_filter.mpr ⟨hes, ?_⟩, hfst⟩
            simp [hfst]
            exact Ne.symm hname
  · cases hn : normalize_records data with
    | none => simp [create_table_from_response, hn]
    | some records =>
        cases hr : asRecords records with
        | none => simp [create_table_from_response, hn, hr]
        | some recs =>
            intro hsucc
            simp only [create_table_from_response, hn, hr, list_tables_update_metadata]
            simp [list_tables, create_table, drop_table]

/-- C10 witness: the fresh store lists exactly `_metadata`; after a
successful ingestion into `t`, both `_metadata` and `t` are listed. -/
theorem c10_metadata_witness :
    table_list_response newStore = (["_metadata"], 1) ∧
    "_metadata" ∈ list_tables (create_table_from_response newStore 0 "t"
        (.arr [.obj [("a", .int 1)]])).1 ∧
    "t" ∈ list_tables (create_table_from_response newStore 0 "t"
        (.arr [.obj [("a", .int 1)]])).1 := by
  have h := c10_metadata_is_listed newStore 0 "t" (.arr [.obj [("a", .int 1)]]) (by decide)
  exact ⟨h.1, h.2.1 (by decide), h.2.2 rfl⟩

/-! ## C7 — translation failures and their visibility -/

/-- C7 counterexample: a completion call that succeeds (status 200) with an
empty completion text makes the translator return the empty string, which
the chat operation surfaces to the caller as the translation-failure result
("Could not parse query") on an existing table — so a translation failure
is not always invisible to the caller. -/
theorem c7_translation_counterexample :
    chat (fun _ => some [("id", "INTEGER")]) (.resp 200 (.content "")) (fun _ => .err)
      "tickets" "hello" = .couldNotParse := by
  rfl

/-- C7 amended: the translator always returns a string and every
primary-path failure (network failure, error status, malformed response)
silently yields the deterministic fallback, which is never empty; the one
exception to invisibility is a successful completion whose text cleans up
to the empty string — only in that case can the translator return the
empty string, and only then does the chat operation surface a
could-not-parse translation failure. -/
theorem c7_translator_amended (outcome : ApiOutcome) (q t : String) (schema : Schema) :
    (convert_to_sql .exn q t schema = simple_sql_fallback q t schema) ∧
    (∀ st b, 400 ≤ st →
        convert_to_sql (.resp st b) q t schema = simple_sql_fallback q t schema) ∧
    (∀ st, st < 400 →
        convert_to_sql (.resp st .malformed) q t schema = simple_sql_fallback q t schema) ∧
    (simple_sql_fallback q t schema ≠ "") ∧
    (convert_to_sql outcome q t schema = "" →
        ∃ st c, outcome = .resp st (.content c) ∧ st < 400) ∧
    (∀ schemaOf engine, chat schemaOf outcome engine t q = .couldNotParse →
        ∃ st c, outcome = .resp st (.content c) ∧ st < 400) := by
  have key : ∀ sch : Schema, convert_to_sql outcome q t sch = "" →
      ∃ st c, outcome = .resp st (.content c) ∧ st < 400 := by
    intro sch hzero
    cases outcome with
    | exn => exact absurd hzero (simple_sql_fallback_ne_empty q t sch)
    | resp st body =>
        by_cases hst : 400 ≤ st
        · rw [show convert_to_sql (.resp st body) q t sch = simple_sql_fallback q t sch
              from by simp [convert_to_sql, hst]] at hzero
          exact absurd hzero (simple_sql_fallback_ne_empty q t sch)
        · cases body with
          | malformed =>
              rw [show convert_to_sql (.resp st .malformed) q t sch =
                  simple_sql_fallback q t sch from by simp [convert_to_sql, hst]] at hzero
              exact absurd hzero (simple_sql_fallback_ne_empty q t sch)
          | content c => exact ⟨st, c, rfl, Nat.not_le.mp hst⟩
  refine ⟨rfl, fun st b hst => by simp [convert_to_sql, hst],
    fun st hst => by simp [convert_to_sql, Nat.not_le.mpr hst], simple_sql_fallback_ne_empty q t schema,
    key schema, ?_⟩
  intro schemaOf engine hchat
  unfold chat at hchat
  cases hso : schemaOf t with
  | none => rw [hso] at hchat; simp at hchat
  | some sch =>
      rw [hso] at hchat
      by_cases hemp : sch = []
      · simp [hemp] at hchat
      · by_cases hsql : convert_to_sql outcome q t sch = ""
        · exact key sch hsql
        · cases hq : query_table engine (convert_to_sql outcome q t sch) with
          | none => simp [hemp, hsql, hq] at hchat
          | some r => simp [hemp, hsql, hq] at hchat

/-- C7 witness: an error-status completion response (503) yields exactly
the fallback SQL, which is non-empty. -/
theorem c7_translator_witness :
    convert_to_sql (.resp 503 (.content "overloaded")) "hi" "t" [("id", "INTEGER")] =
      simple_sql_fallback "hi" "t" [("id", "INTEGER")] ∧
    simple_sql_fallback "hi" "t" [("id", "INTEGER")] ≠ "" := by
  have h := c7_translator_amended (.resp 503 (.content "overloaded")) "hi" "t"
    [("id", "INTEGER")]
  exact ⟨h.2.1 503 (.content "overloaded") (by decide), h.2.2.2.1⟩

/-! ## C8 — concurrent first-access to the tenant registry -/

/-- The interleaving refuting C8: both callers pass the membership test
before either inserts. -/
def raceSchedule : List Bool := [true, false, true, true, true, false, false, false]

/-- C8 counterexample: under the interleaved schedule in which both callers
see the tenant id absent, two distinct stores are constructed (instances 0
and 1) and the two callers return different instances — `get_db` does not
guarantee at-most-one construction under concurrent first-access. -/
theorem c8_registry_counterexample :
    (runRace raceSchedule initRace).constructed = 2 ∧
    (runRace raceSchedule initRace).a = .done (some 0) ∧
    (runRace raceSchedule initRace).b = .done (some 1) ∧
    (some 0 : Option Nat) ≠ some 1 := by
  decide

/-- C8 amended: when the two `get_db` calls are serialized (one runs to
completion before the other starts) exactly one store is constructed and
both callers return it; in general any call that starts with the entry
already present constructs nothing and returns the existing instance, and
a solo first access constructs exactly one store. The at-most-one
guarantee holds only without interleaving — the unsynchronized
check-then-insert loses it under concurrency. -/
theorem c8_registry_amended :
    ((runRace [true, true, true, true, false, false, false, false] initRace).constructed = 1 ∧
     (runRace [true, true, true, true, false, false, false, false] initRace).a = .done (some 0) ∧
     (runRace [true, true, true, true, false, false, false, false] initRace).b = .done (some 0)) ∧
    (∀ c : Nat,
        (runRace [true, true, true, true] ⟨none, c, .start, .done none⟩).constructed = c + 1 ∧
        (runRace [true, true, true, true] ⟨none, c, .start, .done none⟩).a = .done (some c)) ∧
    (∀ c s : Nat,
        (runRace [true, true, true, true] ⟨some s, c, .start, .done none⟩).constructed = c ∧
        (runRace [true, true, true, true] ⟨some s, c, .start, .done none⟩).a = .done (some s)) := by
  refine ⟨by decide, fun c => ?_, fun c s => ?_⟩ <;>
    simp [runRace, stepRace, stepThread]

/-! ## C9 — the shutdown sweep -/

/-- C9 counterexample: with two live stores of which the first fails to
close, the sweep closes nothing else — the exception propagates, the
second store is never closed and the registry is left uncleared, so the
sweep does not log-and-continue. -/
theorem c9_close_all_counterexample :
    close_all_dbs [("a", true), ("b", false)] =
      ([], some "a", [("a", true), ("b", false)]) := by
  decide

/-- Under an all-clean registry the sweep closes everything in order. -/
lemma sweepClose_ok (l : List (String × Bool)) (h : ∀ e ∈ l, e.2 = false) :
    sweepClose l = (l.map Prod.fst, none) := by
  induction l with
  | nil => rfl
  | cons e rest ih =>
      cases e with
      | mk uid fails =>
          have he : fails = false := h (uid, fails) (List.mem_cons_self _ _)
          simp [sweepClose, he,
            ih (fun e' he' => h e' (List.mem_cons_of_mem _ he'))]

/-- The sweep stops at the first store whose close raises. -/
lemma sweepClose_fail (pre : List (String × Bool)) (uid : String)
    (post : List (String × Bool)) (h : ∀ e ∈ pre, e.2 = false) :
    sweepClose (pre ++ (uid, true) :: post) = (pre.map Prod.fst, some uid) := by
  induction pre with
  | nil => simp [sweepClose]
  | cons e rest ih =>
      cases e with
      | mk uid' fails =>
          have he : fails = false := h (uid', fails) (List.mem_cons_self _ _)
          simp [sweepClose, he,
            ih (fun e' he' => h e' (List.mem_cons_of_mem _ he'))]

/-- C9 amended: `close_all_dbs` closes the stores in registry order; when
every close succeeds each live store is closed exactly once and the
registry is cleared, but when some close raises, the stores before the
first failing one are the only ones closed, the exception propagates, and
the registry is left uncleared — the sweep aborts rather than logging and
continuing. -/
theorem c9_close_all_amended (reg : List (String × Bool)) :
    ((∀ e ∈ reg, e.2 = false) → close_all_dbs reg = (reg.map Prod.fst, none, [])) ∧
    (∀ pre uid post, reg = pre ++ (uid, true) :: post → (∀ e ∈ pre, e.2 = false) →
        close_all_dbs reg = (pre.map Prod.fst, some uid, reg)) := by
  constructor
  · intro h
    simp [close_all_dbs, sweepClose_ok reg h]
  · intro pre uid post hreg hpre
    subst hreg
    simp [close_all_dbs, sweepClose_fail pre uid post hpre]

/-- C9 witness: a clean two-store registry is fully closed and cleared,
while a registry whose middle store fails loses the tail of the sweep. -/
theorem c9_close_all_witness :
    close_all_dbs [("a", false), ("b", true), ("c", false)] =
      (["a"], some "b", [("a", false), ("b", true), ("c", false)]) ∧
    close_all_dbs [("a", false), ("c", false)] = (["a", "c"], none, []) := by
  constructor
  · exact (c9_close_all_amended [("a", false), ("b", true), ("c", false)]).2
      [("a", false)] "b" [("c", false)] rfl (by decide)
  · exact (c9_close_all_amended [("a", false), ("c", false)]).1 (by decide)

end AiService
